import Mathlib

/-!
Verification development for the remote-juggler hardware-backed PIN service.

This file gives a shallow embedding of the C sources under src/ (the
pinentry HSM module in pinentry/hsm_linux.c and pinentry/hsm_darwin.c, and
the c_src dispatcher in c_src/hsm.c with its TPM backend c_src/hsm_tpm.c)
and proves or refutes the behavioural claims of the specification against it.

Modelling conventions:
  * C byte strings are modelled as lists of byte values (List Nat);
    nullable pointers (identity, pin, callback) are wrapped in Option.
  * The filesystem / OS keychain is an association list from path (or
    keychain service name) to stored content.  Reads and writes succeed in
    the nominal environment; failure modes that the claims mention (unlink
    failing for a reason other than ENOENT) are injected explicitly as
    boolean parameters.
  * The TPM itself is modelled at seal-object granularity: Esys_Create
    produces a sealed blob carrying the PIN together with the policy digest
    it was sealed under; Esys_Unseal returns the PIN iff the policy digest
    recomputed from the current platform state equals the one in the blob,
    and otherwise fails with TPM2_RC_POLICY_FAIL, exactly as a TPM does.
  * Getenv lookups (XDG_DATA_HOME resolution) are folded into an abstract
    path prefix, since one process sees one fixed environment.
  * The lifecycle of the plaintext buffer in unseal is recorded as an event
    trace (allocate, hand to callback, zeroize, release) so that the
    zeroization discipline is a checkable property of each return path.
-/

namespace HsmLinux

/-- Error codes of pinentry/hsm.h (hsm_error_t).  The numeric values are
those of the C enum: 0..13 consecutively and HSM_ERR_INTERNAL = 99.
ERR_IOERR renders the C enumerator HSM_ERR_IO. -/
inductive hsm_error where
  | SUCCESS
  | ERR_NOT_AVAILABLE
  | ERR_NOT_INITIALIZED
  | ERR_INVALID_IDENTITY
  | ERR_SEAL_FAILED
  | ERR_UNSEAL_FAILED
  | ERR_NOT_FOUND
  | ERR_AUTH_FAILED
  | ERR_PCR_MISMATCH
  | ERR_MEMORY
  | ERR_IOERR
  | ERR_PERMISSION
  | ERR_TIMEOUT
  | ERR_CANCELLED
  | ERR_INTERNAL
  deriving DecidableEq, Repr

/-- Numeric value of each hsm_error_t enumerator (pinentry/hsm.h lines 50-65). -/
def hsm_error.code : hsm_error → Int
  | .SUCCESS => 0
  | .ERR_NOT_AVAILABLE => 1
  | .ERR_NOT_INITIALIZED => 2
  | .ERR_INVALID_IDENTITY => 3
  | .ERR_SEAL_FAILED => 4
  | .ERR_UNSEAL_FAILED => 5
  | .ERR_NOT_FOUND => 6
  | .ERR_AUTH_FAILED => 7
  | .ERR_PCR_MISMATCH => 8
  | .ERR_MEMORY => 9
  | .ERR_IOERR => 10
  | .ERR_PERMISSION => 11
  | .ERR_TIMEOUT => 12
  | .ERR_CANCELLED => 13
  | .ERR_INTERNAL => 99

/-! TPM 2.0 return-code base values, as defined by tss2_tpm2_types.h.
The format-one codes live at 0x080 + n, the version-one codes at 0x100 + n,
and the warning codes at 0x900 + n. -/

def TSS2_RC_SUCCESS : Nat := 0
def TPM2_RC_POLICY_FAIL : Nat := 0x09D
def TPM2_RC_PCR_CHANGED : Nat := 0x128
def TPM2_RC_PCR : Nat := 0x127
def TPM2_RC_AUTH_FAIL : Nat := 0x08E
def TPM2_RC_BAD_AUTH : Nat := 0x0A2
def TPM2_RC_AUTH_MISSING : Nat := 0x125
def TPM2_RC_AUTH_TYPE : Nat := 0x124
def TPM2_RC_AUTH_CONTEXT : Nat := 0x145
def TPM2_RC_AUTH_UNAVAILABLE : Nat := 0x12F
def TPM2_RC_LOCALITY : Nat := 0x907
def TPM2_RC_HIERARCHY : Nat := 0x085
def TPM2_RC_NV_AUTHORIZATION : Nat := 0x149
def TPM2_RC_COMMAND_CODE : Nat := 0x143
def TPM2_RC_DISABLED : Nat := 0x120
def TPM2_RC_MEMORY : Nat := 0x904
def TPM2_RC_OBJECT_MEMORY : Nat := 0x902
def TPM2_RC_SESSION_MEMORY : Nat := 0x903
def TPM2_RC_OBJECT_HANDLES : Nat := 0x906
def TPM2_RC_SESSION_HANDLES : Nat := 0x905
def TPM2_RC_RETRY : Nat := 0x922
def TPM2_RC_YIELDED : Nat := 0x908
def TPM2_RC_CANCELED : Nat := 0x909
def TPM2_RC_HANDLE : Nat := 0x08B
def TPM2_RC_REFERENCE_H0 : Nat := 0x910
def TPM2_RC_REFERENCE_H1 : Nat := 0x911
def TPM2_RC_REFERENCE_H2 : Nat := 0x912
def TPM2_RC_INITIALIZE : Nat := 0x100
def TPM2_RC_NOT_USED : Nat := 0x97F
def TPM2_RC_UPGRADE : Nat := 0x12D

/-- hsm_map_tss_error (pinentry/hsm_linux.c lines 108-181): map a TSS2_RC to
hsm_error_t.  The base code is extracted by masking to the low 16 bits
(tss_rc & 0xFFFF), then classified by the switch statement. -/
def hsm_map_tss_error (tss_rc : Nat) : hsm_error :=
  if tss_rc = TSS2_RC_SUCCESS then .SUCCESS
  else
    let base := tss_rc % 65536
    if base = TPM2_RC_POLICY_FAIL ∨ base = TPM2_RC_PCR_CHANGED ∨
       base = TPM2_RC_PCR then .ERR_PCR_MISMATCH
    else if base = TPM2_RC_AUTH_FAIL ∨ base = TPM2_RC_BAD_AUTH ∨
       base = TPM2_RC_AUTH_MISSING ∨ base = TPM2_RC_AUTH_TYPE ∨
       base = TPM2_RC_AUTH_CONTEXT ∨ base = TPM2_RC_AUTH_UNAVAILABLE then
      .ERR_AUTH_FAILED
    else if base = TPM2_RC_LOCALITY ∨ base = TPM2_RC_HIERARCHY ∨
       base = TPM2_RC_NV_AUTHORIZATION ∨ base = TPM2_RC_COMMAND_CODE ∨
       base = TPM2_RC_DISABLED then .ERR_PERMISSION
    else if base = TPM2_RC_MEMORY ∨ base = TPM2_RC_OBJECT_MEMORY ∨
       base = TPM2_RC_SESSION_MEMORY ∨ base = TPM2_RC_OBJECT_HANDLES ∨
       base = TPM2_RC_SESSION_HANDLES then .ERR_MEMORY
    else if base = TPM2_RC_RETRY ∨ base = TPM2_RC_YIELDED ∨
       base = TPM2_RC_CANCELED then .ERR_TIMEOUT
    else if base = TPM2_RC_HANDLE ∨ base = TPM2_RC_REFERENCE_H0 ∨
       base = TPM2_RC_REFERENCE_H1 ∨ base = TPM2_RC_REFERENCE_H2 then
      .ERR_NOT_FOUND
    else if base = TPM2_RC_INITIALIZE ∨ base = TPM2_RC_NOT_USED ∨
       base = TPM2_RC_UPGRADE then .ERR_NOT_AVAILABLE
    else .ERR_INTERNAL

/-- map_unseal_error (pinentry/hsm_linux.c lines 1039-1054): remap
HSM_ERR_INTERNAL to HSM_ERR_UNSEAL_FAILED; AUTH_FAILED, PCR_MISMATCH and
all other codes pass through unchanged. -/
def map_unseal_error (tss_rc : Nat) : hsm_error :=
  match hsm_map_tss_error tss_rc with
  | .ERR_INTERNAL => .ERR_UNSEAL_FAILED
  | e => e

/-- The fallible TSS call sites reached from hsm_seal_pin and its
helpers. -/
inductive SealStep where
  | esysInit        -- Esys_Initialize via init_esys, line 469
  | createPrimary   -- Esys_CreatePrimary via create_primary, line 537
  | startSession    -- Esys_StartAuthSession, line 870
  | policyPCR       -- Esys_PolicyPCR via create_pcr_policy, line 656
  | policyGetDigest -- Esys_PolicyGetDigest via create_pcr_policy, line 675
  | createObject    -- Esys_Create, line 932
  deriving DecidableEq, Repr

/-- Error remapping applied at each TSS call site reached from hsm_seal_pin
(pinentry/hsm_linux.c).  The Esys_StartAuthSession, Esys_PolicyPCR,
Esys_PolicyGetDigest and Esys_Create sites remap HSM_ERR_INTERNAL to
HSM_ERR_SEAL_FAILED (lines 885, 668-669, 685, 954).  The Esys_Initialize
site (init_esys, line 473) and the Esys_CreatePrimary site (create_primary,
lines 558-561) apply no remap, and hsm_seal_pin returns their mapped error
unchanged (lines 851, 858), so an unclassified failure at either of those
two sites surfaces from hsm_seal_pin as HSM_ERR_INTERNAL. -/
def seal_site_error (step : SealStep) (tss_rc : Nat) : hsm_error :=
  match step with
  | .esysInit => hsm_map_tss_error tss_rc
  | .createPrimary => hsm_map_tss_error tss_rc
  | _ =>
      match hsm_map_tss_error tss_rc with
      | .ERR_INTERNAL => .ERR_SEAL_FAILED
      | e => e

/-- The four fallible TSS call sites inside hsm_unseal_pin. -/
inductive UnsealStep where
  | loadObject    -- Esys_Load, line 1133
  | startSession  -- Esys_StartAuthSession, line 1161
  | policyPCR     -- Esys_PolicyPCR, line 1188
  | unsealCmd     -- Esys_Unseal, line 1207
  deriving DecidableEq, Repr

/-- Error remapping applied at each TSS call site of hsm_unseal_pin
(pinentry/hsm_linux.c): Esys_Load and Esys_StartAuthSession failures go
through map_unseal_error (lines 1146, 1173), while Esys_PolicyPCR and
Esys_Unseal failures remap HSM_ERR_INTERNAL to HSM_ERR_PCR_MISMATCH
(lines 1201, 1223). -/
def unseal_site_error (step : UnsealStep) (tss_rc : Nat) : hsm_error :=
  match step with
  | .loadObject => map_unseal_error tss_rc
  | .startSession => map_unseal_error tss_rc
  | .policyPCR =>
      match hsm_map_tss_error tss_rc with
      | .ERR_INTERNAL => .ERR_PCR_MISMATCH
      | e => e
  | .unsealCmd =>
      match hsm_map_tss_error tss_rc with
      | .ERR_INTERNAL => .ERR_PCR_MISMATCH
      | e => e

end HsmLinux

namespace Store

/-! A polymorphic association store modelling a directory of files (keyed by
path) or an OS keychain (keyed by service name).  Writing uses
erase-then-insert, matching both the truncating fopen("wb") of the TPM
backend and the delete-then-add pattern of the keychain backend. -/

/-- First entry whose key matches, like a filesystem path lookup. -/
def find : List (String × β) → String → Option β
  | [], _ => none
  | (k, v) :: rest, key => if k = key then some v else find rest key

/-- Remove every entry stored under a key (unlink / SecItemDelete). -/
def erase : List (String × β) → String → List (String × β)
  | [], _ => []
  | (k, v) :: rest, key =>
      if k = key then erase rest key else (k, v) :: erase rest key

/-- Replace whatever is stored under a key (truncating write / delete-then-add). -/
def insert (l : List (String × β)) (key : String) (v : β) :
    List (String × β) :=
  (key, v) :: erase l key

theorem find_insert (l : List (String × β)) (key : String) (v : β) :
    find (insert l key v) key = some v := by
  simp [insert, find]

theorem find_erase (l : List (String × β)) (key : String) :
    find (erase l key) key = none := by
  induction l with
  | nil => simp [erase, find]
  | cons hd tl ih =>
      by_cases h : hd.1 = key
      · simpa [erase, h] using ih
      · simpa [erase, find, h] using ih

theorem find_insert_ne (l : List (String × β)) (key key' : String) (v : β)
    (h : key ≠ key') : find (insert l key v) key' = find (erase l key) key' := by
  simp [insert, find, h]

end Store

namespace HsmLinux

/-- Maximum PIN length for the TPM seal path (pinentry/hsm_linux.c line 47). -/
def MAX_PIN_LEN : Nat := 128

/-- Storage directory under XDG_DATA_HOME (pinentry/hsm_linux.c line 41). -/
def DATA_DIR : String := "remote-juggler/tpm-sealed"

/-- Sealed blob file extension (pinentry/hsm_linux.c line 50). -/
def SEALED_EXT : String := ".tpm2"

/-- get_storage_path (lines 260-274): the per-user storage directory.  The
getenv resolution of XDG_DATA_HOME / HOME is folded into an abstract fixed
prefix, since the process environment is constant for one run. -/
def get_storage_path : String := "$XDG_DATA_HOME/" ++ DATA_DIR

/-- get_sealed_path (lines 319-333): file path holding the sealed blob of an
identity: storage directory slash identity plus the .tpm2 extension. -/
def get_sealed_path (identity : String) : String :=
  get_storage_path ++ "/" ++ identity ++ SEALED_EXT

/-- A sealed artifact as persisted by hsm_seal_pin: the TPM-wrapped secret
together with the policy digest it was sealed under (Esys_Create is called
with authPolicy = the trial-session PCR policy digest, lines 911-926). -/
structure SealedBlob where
  pin : List Nat
  authPolicy : List Nat
  deriving DecidableEq, Repr

/-- Persistent and platform state seen by the TPM backend: the sealed-blob
files, and the PCR policy digest that a policy session over the configured
PCR selection currently evaluates to (create_pcr_policy at seal time,
Esys_PolicyPCR with current PCR values at unseal time). -/
structure TpmState where
  files : List (String × SealedBlob)
  currentPolicy : List Nat
  deriving DecidableEq, Repr

/-- Plaintext-buffer lifecycle events along one execution of unseal. -/
inductive BufEvent where
  | alloc                                      -- backend hands out plaintext
  | callbackCall (pin : List Nat) (ret : Int)  -- consumer invoked on the view
  | zeroize                                    -- buffer overwritten with zeros
  | release                                    -- buffer memory freed
  deriving DecidableEq, Repr

/-- Scan of an event trace: true iff every release of the plaintext buffer
is preceded by a zeroize issued after the most recent allocation. -/
def zeroize_scan : List BufEvent → Bool → Bool
  | [], _ => true
  | .alloc :: rest, _ => zeroize_scan rest false
  | .zeroize :: rest, _ => zeroize_scan rest true
  | .release :: rest, z => z && zeroize_scan rest z
  | .callbackCall _ _ :: rest, z => zeroize_scan rest z

/-- The zeroization discipline of §4.7: no plaintext buffer is released
before being overwritten with zeros. -/
def zeroized_before_release (t : List BufEvent) : Bool := zeroize_scan t true

/-- hsm_seal_pin (pinentry/hsm_linux.c lines 824-1000) in the nominal
environment (TPM and filesystem calls succeed).  Input validation rejects a
null identity, a null pin, and a pin length of 0 or above MAX_PIN_LEN, all
as HSM_ERR_INVALID_IDENTITY (lines 830-833).  On success a sealed blob
carrying the PIN under the current PCR policy digest is written to the
identity's file, truncating any previous content (fopen "wb", line 969). -/
def hsm_seal_pin (st : TpmState) (identity : Option String)
    (pin : Option (List Nat)) : TpmState × hsm_error :=
  match identity, pin with
  | some id, some p =>
      if p.length = 0 ∨ p.length > MAX_PIN_LEN then (st, .ERR_INVALID_IDENTITY)
      else
        let blob : SealedBlob := { pin := p, authPolicy := st.currentPolicy }
        ({ st with files := Store.insert st.files (get_sealed_path id) blob },
         .SUCCESS)
  | _, _ => (st, .ERR_INVALID_IDENTITY)

/-- Result of one hsm_unseal_pin execution: the state after the call (the
function never writes to the store), the returned error code, the list of
consumer invocations with the bytes delivered, and the plaintext-buffer
event trace of the taken path. -/
structure UnsealOut where
  state : TpmState
  ret : hsm_error
  calls : List (List Nat)
  events : List BufEvent

/-- hsm_unseal_pin (pinentry/hsm_linux.c lines 1056-1236) in the nominal
environment.  Null identity or callback is HSM_ERR_INVALID_IDENTITY
(lines 1062-1065); a missing sealed file is HSM_ERR_NOT_FOUND (line 1093).
Esys_Unseal succeeds iff the policy digest of the current platform state
matches the blob's authPolicy, else it fails with TPM2_RC_POLICY_FAIL,
remapped at the Esys_Unseal call site (line 1223).  On success the callback
runs on the plaintext once, then unseal_cleanup (lines 1017-1034) zeroizes
the buffer (memset, line 1024) before freeing it (Esys_Free, line 1025);
the return value is HSM_SUCCESS iff the callback returned 0 (line 1235). -/
def hsm_unseal_pin (st : TpmState) (identity : Option String)
    (callback : Option (List Nat → Int)) : UnsealOut :=
  match identity, callback with
  | some id, some cb =>
      match Store.find st.files (get_sealed_path id) with
      | none => ⟨st, .ERR_NOT_FOUND, [], []⟩
      | some blob =>
          if blob.authPolicy = st.currentPolicy then
            let r := cb blob.pin
            ⟨st, if r = 0 then .SUCCESS else .ERR_INTERNAL, [blob.pin],
             [.alloc, .callbackCall blob.pin r, .zeroize, .release]⟩
          else
            ⟨st, unseal_site_error .unsealCmd TPM2_RC_POLICY_FAIL, [], []⟩
  | _, _ => ⟨st, .ERR_INVALID_IDENTITY, [], []⟩

/-- hsm_pin_exists (pinentry/hsm_linux.c lines 1238-1248): -1 on null
identity, else 1 iff the sealed file exists (access F_OK). -/
def hsm_pin_exists (st : TpmState) (identity : Option String) : Int :=
  match identity with
  | none => -1
  | some id =>
      if (Store.find st.files (get_sealed_path id)).isSome then 1 else 0

/-- hsm_clear_pin (pinentry/hsm_linux.c lines 1250-1278).  Null identity is
HSM_ERR_INVALID_IDENTITY.  The file body is overwritten with zeros, then
unlinked; the result is HSM_SUCCESS when unlink succeeds or fails with
ENOENT (already absent), and HSM_ERR_IO otherwise (line 1277).  The
injected unlinkFault input models unlink failing for a reason other than
ENOENT on an existing file; the zero-overwrite of a file body left behind
by such a fault is not modelled, as no claim depends on it. -/
def hsm_clear_pin (st : TpmState) (identity : Option String)
    (unlinkFault : Bool) : TpmState × hsm_error :=
  match identity with
  | none => (st, .ERR_INVALID_IDENTITY)
  | some id =>
      let path := get_sealed_path id
      match Store.find st.files path with
      | some _ =>
          if unlinkFault then (st, .ERR_IOERR)
          else ({ st with files := Store.erase st.files path }, .SUCCESS)
      | none => (st, .SUCCESS)

/-- hsm_error_message static message table (pinentry/hsm_linux.c lines
1293-1309).  The designated initializers populate indices 0..13 and 99;
the array has 100 entries and every other slot is a null pointer, which
this model renders as none. -/
def messages (n : Nat) : Option String :=
  if n = 0 then some "Success"
  else if n = 1 then some "TPM 2.0 hardware not available"
  else if n = 2 then some "TPM not initialized"
  else if n = 3 then some "Invalid identity name"
  else if n = 4 then some "Failed to seal PIN with TPM"
  else if n = 5 then some "Failed to unseal PIN from TPM"
  else if n = 6 then some "No PIN stored for identity"
  else if n = 7 then some "TPM authentication failed"
  else if n = 8 then some "Platform boot state changed since PIN was sealed"
  else if n = 9 then some "Memory allocation failed"
  else if n = 10 then some "I/O error"
  else if n = 11 then some "Permission denied (check TPM access)"
  else if n = 12 then some "TPM operation timed out"
  else if n = 13 then some "Operation cancelled"
  else if n = 99 then some "Internal error"
  else none

/-- hsm_error_message (pinentry/hsm_linux.c lines 1292-1315): indices in
[0, 100) are read from the messages array (returning its stored pointer,
null for the unpopulated 14..98); anything else returns "Unknown error". -/
def hsm_error_message (error : Int) : Option String :=
  if 0 ≤ error ∧ error < 100 then messages error.toNat
  else some "Unknown error"

end HsmLinux

namespace HsmDarwin

open HsmLinux (hsm_error BufEvent)

/-- Maximum PIN length of the Secure Enclave module
(pinentry/hsm_darwin.c line 33). -/
def MAX_PIN_LEN : Nat := 256

/-- Keychain service name prefixed with com.remotejuggler.pin.
(pinentry/hsm_darwin.c lines 27, 470). -/
def se_service (identity : String) : String :=
  "com.remotejuggler.pin." ++ identity

/-- OS keychain state of the Darwin module: service name to stored data.
With the Secure Enclave present the stored data is the ECIES ciphertext of
the PIN under the identity's device-bound key; the ideal secure element is
modelled by storing the bytes the later decryption returns, i.e. the PIN. -/
structure SEState where
  keychain : List (String × List Nat)
  deriving DecidableEq, Repr

/-- store_encrypted_pin (pinentry/hsm_darwin.c lines 466-507): delete any
existing keychain item for the service, ignoring not-found, then add the
fresh blob (delete-then-add replace). -/
def store_encrypted_pin (st : SEState) (identity : String)
    (encrypted : List Nat) : SEState × hsm_error :=
  ({ keychain := Store.insert st.keychain (se_service identity) encrypted },
   .SUCCESS)

/-- hsm_seal_pin (pinentry/hsm_darwin.c lines 623-685) on a host whose
secure element is available, in the nominal environment: null identity,
null pin, and pin length 0 or above MAX_PIN_LEN are
HSM_ERR_INVALID_IDENTITY (line 626); otherwise the PIN is ECIES-encrypted
to the identity's enclave key and stored via store_encrypted_pin. -/
def hsm_seal_pin (st : SEState) (identity : Option String)
    (pin : Option (List Nat)) : SEState × hsm_error :=
  match identity, pin with
  | some id, some p =>
      if p.length = 0 ∨ p.length > MAX_PIN_LEN then (st, .ERR_INVALID_IDENTITY)
      else store_encrypted_pin st id p
  | _, _ => (st, .ERR_INVALID_IDENTITY)

/-- Result of one Darwin hsm_unseal_pin execution, mirroring
HsmLinux.UnsealOut. -/
structure UnsealOut where
  state : SEState
  ret : hsm_error
  calls : List (List Nat)
  events : List BufEvent

/-- hsm_unseal_pin (pinentry/hsm_darwin.c lines 687-751) on a host whose
secure element is available, in the nominal environment.  Null identity or
callback is HSM_ERR_INVALID_IDENTITY (line 690); a missing keychain item is
HSM_ERR_NOT_FOUND (errSecItemNotFound via retrieve_encrypted_pin).  On
success the decrypted bytes are handed to the callback, after which every
path runs cf_guard_release (line 738), which CFReleases the decrypted
CFData without any zeroization pass: the event trace of the success path
therefore contains no zeroize between alloc and release. -/
def hsm_unseal_pin (st : SEState) (identity : Option String)
    (callback : Option (List Nat → Int)) : UnsealOut :=
  match identity, callback with
  | some id, some cb =>
      match Store.find st.keychain (se_service id) with
      | none => ⟨st, .ERR_NOT_FOUND, [], []⟩
      | some data =>
          let r := cb data
          ⟨st, if r = 0 then .SUCCESS else .ERR_INTERNAL, [data],
           [.alloc, .callbackCall data r, .release]⟩
  | _, _ => ⟨st, .ERR_INVALID_IDENTITY, [], []⟩

/-- hsm_pin_exists (pinentry/hsm_darwin.c lines 753-787): -1 on null
identity, else 1 iff a keychain item exists for the identity's service. -/
def hsm_pin_exists (st : SEState) (identity : Option String) : Int :=
  match identity with
  | none => -1
  | some id =>
      if (Store.find st.keychain (se_service id)).isSome then 1 else 0

/-- hsm_clear_pin (pinentry/hsm_darwin.c lines 789-823): delete the
keychain item and the enclave key; errSecSuccess and errSecItemNotFound
both yield HSM_SUCCESS. -/
def hsm_clear_pin (st : SEState) (identity : Option String) :
    SEState × hsm_error :=
  match identity with
  | none => (st, .ERR_INVALID_IDENTITY)
  | some id =>
      ({ keychain := Store.erase st.keychain (se_service id) }, .SUCCESS)

end HsmDarwin

namespace HsmCore

/-- Status codes of c_src/hsm.h (HSMStatus), numeric values 0 down to -12.
ERR_IOERR renders the C enumerator HSM_ERR_IO. -/
inductive HSMStatus where
  | SUCCESS
  | ERR_NOT_AVAILABLE
  | ERR_SEAL_FAILED
  | ERR_UNSEAL_FAILED
  | ERR_KEY_NOT_FOUND
  | ERR_AUTH_FAILED
  | ERR_INVALID_PARAM
  | ERR_MEMORY
  | ERR_TPM_DEVICE
  | ERR_SE_NOT_READY
  | ERR_PCR_MISMATCH
  | ERR_IOERR
  | ERR_INTERNAL
  deriving DecidableEq, Repr

/-- Numeric value of each HSMStatus enumerator (c_src/hsm.h lines 35-49). -/
def HSMStatus.code : HSMStatus → Int
  | .SUCCESS => 0
  | .ERR_NOT_AVAILABLE => -1
  | .ERR_SEAL_FAILED => -2
  | .ERR_UNSEAL_FAILED => -3
  | .ERR_KEY_NOT_FOUND => -4
  | .ERR_AUTH_FAILED => -5
  | .ERR_INVALID_PARAM => -6
  | .ERR_MEMORY => -7
  | .ERR_TPM_DEVICE => -8
  | .ERR_SE_NOT_READY => -9
  | .ERR_PCR_MISMATCH => -10
  | .ERR_IOERR => -11
  | .ERR_INTERNAL => -12

/-- Backend kinds of c_src/hsm.h (HSMType). -/
inductive HSMType where
  | NONE
  | TPM
  | SECURE_ENCLAVE
  | KEYCHAIN
  deriving DecidableEq, Repr

/-- The per-byte test of validate_identity (c_src/hsm.c lines 115-120):
a byte passes iff it is none of '/', '\', '.', and lies in 32..126.
(The c == '\0' disjunct of the C condition is unreachable, since the
scan stops at the terminator.) -/
def valid_identity_char (c : Nat) : Bool :=
  !(c = 47 || c = 92 || c = 46 || c < 32 || c > 126)

/-- validate_identity (c_src/hsm.c lines 110-123): reject a null or empty
identity, and any identity containing a byte that fails
valid_identity_char.  No maximum-length check is performed. -/
def validate_identity : Option (List Nat) → Bool
  | none => false
  | some bytes => !bytes.isEmpty && bytes.all valid_identity_char

/-- hsm_store_pin (c_src/hsm.c lines 189-235), with the active backend's
seal outcome abstracted as the backendSeal argument.  Returns the status
paired with whether a backend operation was dispatched.  Identity failing
validate_identity, a null pin, or pin length 0 return HSM_ERR_INVALID_PARAM
with no dispatch; with no backend the result is HSM_ERR_NOT_AVAILABLE,
also with no backend call. -/
def hsm_store_pin (detected : HSMType) (backendSeal : HSMStatus)
    (identity : Option (List Nat)) (pin : Option (List Nat)) :
    HSMStatus × Bool :=
  if !validate_identity identity then (.ERR_INVALID_PARAM, false)
  else
    match pin with
    | none => (.ERR_INVALID_PARAM, false)
    | some p =>
        if p.length = 0 then (.ERR_INVALID_PARAM, false)
        else
          match detected with
          | .NONE => (.ERR_NOT_AVAILABLE, false)
          | _ => (backendSeal, true)

/-- hsm_retrieve_pin (c_src/hsm.c lines 237-294), backend outcome
abstracted; same validation-then-dispatch shape as hsm_store_pin (the
pin_out / pin_len_out output pointers are taken to be non-null). -/
def hsm_retrieve_pin (detected : HSMType) (backendRetrieve : HSMStatus)
    (identity : Option (List Nat)) : HSMStatus × Bool :=
  if !validate_identity identity then (.ERR_INVALID_PARAM, false)
  else
    match detected with
    | .NONE => (.ERR_NOT_AVAILABLE, false)
    | _ => (backendRetrieve, true)

/-- hsm_clear_pin (c_src/hsm.c lines 296-342), backend outcome
abstracted. -/
def hsm_clear_pin (detected : HSMType) (backendClear : HSMStatus)
    (identity : Option (List Nat)) : HSMStatus × Bool :=
  if !validate_identity identity then (.ERR_INVALID_PARAM, false)
  else
    match detected with
    | .NONE => (.ERR_NOT_AVAILABLE, false)
    | _ => (backendClear, true)

/-- hsm_has_pin (c_src/hsm.c lines 344-384): 0 for an invalid identity or
no backend, otherwise the backend's existence answer; the boolean again
records whether a backend operation was dispatched. -/
def hsm_has_pin (detected : HSMType) (backendHas : Bool)
    (identity : Option (List Nat)) : Int × Bool :=
  if !validate_identity identity then (0, false)
  else
    match detected with
    | .NONE => (0, false)
    | _ => (if backendHas then 1 else 0, true)

/-- ERROR_MESSAGES (c_src/hsm.c lines 54-68): thirteen entries, indexed by
the negated status code; every entry is populated. -/
def ERROR_MESSAGES : List String :=
  ["Success",
   "HSM not available on this platform",
   "Failed to seal/encrypt PIN",
   "Failed to unseal/decrypt PIN (security state may have changed)",
   "No PIN stored for this identity",
   "Authentication failed (wrong password or biometric)",
   "Invalid parameter",
   "Memory allocation failed",
   "TPM device not accessible",
   "Secure Enclave not ready or locked",
   "TPM PCR mismatch (boot configuration changed)",
   "I/O error during HSM operation",
   "Internal error"]

/-- hsm_error_message (c_src/hsm.c lines 425-433): non-positive statuses
index the table by their negation, positive statuses index entry 0; out of
range falls back to "Unknown error". -/
def hsm_error_message (status : Int) : Option String :=
  let index : Int := if status ≤ 0 then -status else 0
  if index.toNat < ERROR_MESSAGES.length then ERROR_MESSAGES.get? index.toNat
  else some "Unknown error"

/-- hsm_tpm.h storage constants: directory .config/remote-juggler/hsm/tpm
under HOME (line 57) and extension .sealed (line 58); getenv("HOME") is
folded into an abstract fixed prefix. -/
def tpm_get_sealed_path (identity : String) : String :=
  "$HOME/.config/remote-juggler/hsm/tpm/" ++ identity ++ ".sealed"

/-- tpm_delete (c_src/hsm_tpm.c lines 322-361).  A null or empty identity is
HSM_ERR_INVALID_PARAM; an absent sealed file is HSM_ERR_KEY_NOT_FOUND
(access F_OK check, line 332); otherwise the file is overwritten with zeros
and unlinked, HSM_ERR_IO if unlink fails (injected as unlinkFault) and
HSM_SUCCESS when the file was removed. -/
def tpm_delete (fs : List (String × List Nat)) (identity : Option String)
    (unlinkFault : Bool) : List (String × List Nat) × HSMStatus :=
  match identity with
  | none => (fs, .ERR_INVALID_PARAM)
  | some id =>
      if id = "" then (fs, .ERR_INVALID_PARAM)
      else
        let path := tpm_get_sealed_path id
        match Store.find fs path with
        | none => (fs, .ERR_KEY_NOT_FOUND)
        | some _ =>
            if unlinkFault then (fs, .ERR_IOERR)
            else (Store.erase fs path, .SUCCESS)

end HsmCore

/-! ## Claim theorems -/

open HsmLinux HsmDarwin HsmCore in
/-- Claim C5, counterexample.  The claim states that every unclassified
failure occurring during unseal maps to unseal_failed; but at the
Esys_Unseal call site (hsm_linux.c lines 1218-1224) an unclassified
failure — e.g. TSS2_RC 0x101 (TPM2_RC_FAILURE), which hsm_map_tss_error
classifies as HSM_ERR_INTERNAL — is returned as HSM_ERR_PCR_MISMATCH,
not HSM_ERR_UNSEAL_FAILED. -/
theorem C5_unseal_unclassified_counterexample :
    HsmLinux.hsm_map_tss_error 0x101 = HsmLinux.hsm_error.ERR_INTERNAL ∧
    HsmLinux.unseal_site_error .unsealCmd 0x101 =
      HsmLinux.hsm_error.ERR_PCR_MISMATCH ∧
    HsmLinux.hsm_error.ERR_PCR_MISMATCH ≠
      HsmLinux.hsm_error.ERR_UNSEAL_FAILED := by
  decide

/-- Claim C5, amended.  The TPM error classification sends
policy-fail/PCR-changed/PCR base codes to pcr_mismatch, authorization-class
codes to auth_failed, handle- and reference-class codes to not_found,
resource-class codes to memory, and retry/yield/cancel codes to timeout.
During seal, an unclassified failure of Esys_StartAuthSession,
Esys_PolicyPCR, Esys_PolicyGetDigest or Esys_Create maps to seal_failed,
while an unclassified failure of Esys_Initialize or Esys_CreatePrimary
surfaces from hsm_seal_pin as internal, unchanged.  During unseal, an
unclassified failure of Esys_Load or Esys_StartAuthSession maps to
unseal_failed, while an unclassified failure of Esys_PolicyPCR or
Esys_Unseal maps to pcr_mismatch. -/
theorem C5_tss_error_classification (rc : Nat) :
    ((rc % 65536 = HsmLinux.TPM2_RC_POLICY_FAIL ∨
      rc % 65536 = HsmLinux.TPM2_RC_PCR_CHANGED ∨
      rc % 65536 = HsmLinux.TPM2_RC_PCR) →
      HsmLinux.hsm_map_tss_error rc = .ERR_PCR_MISMATCH) ∧
    ((rc % 65536 = HsmLinux.TPM2_RC_AUTH_FAIL ∨
      rc % 65536 = HsmLinux.TPM2_RC_BAD_AUTH ∨
      rc % 65536 = HsmLinux.TPM2_RC_AUTH_MISSING ∨
      rc % 65536 = HsmLinux.TPM2_RC_AUTH_TYPE ∨
      rc % 65536 = HsmLinux.TPM2_RC_AUTH_CONTEXT ∨
      rc % 65536 = HsmLinux.TPM2_RC_AUTH_UNAVAILABLE) →
      HsmLinux.hsm_map_tss_error rc = .ERR_AUTH_FAILED) ∧
    ((rc % 65536 = HsmLinux.TPM2_RC_HANDLE ∨
      rc % 65536 = HsmLinux.TPM2_RC_REFERENCE_H0 ∨
      rc % 65536 = HsmLinux.TPM2_RC_REFERENCE_H1 ∨
      rc % 65536 = HsmLinux.TPM2_RC_REFERENCE_H2) →
      HsmLinux.hsm_map_tss_error rc = .ERR_NOT_FOUND) ∧
    ((rc % 65536 = HsmLinux.TPM2_RC_MEMORY ∨
      rc % 65536 = HsmLinux.TPM2_RC_OBJECT_MEMORY ∨
      rc % 65536 = HsmLinux.TPM2_RC_SESSION_MEMORY ∨
      rc % 65536 = HsmLinux.TPM2_RC_OBJECT_HANDLES ∨
      rc % 65536 = HsmLinux.TPM2_RC_SESSION_HANDLES) →
      HsmLinux.hsm_map_tss_error rc = .ERR_MEMORY) ∧
    ((rc % 65536 = HsmLinux.TPM2_RC_RETRY ∨
      rc % 65536 = HsmLinux.TPM2_RC_YIELDED ∨
      rc % 65536 = HsmLinux.TPM2_RC_CANCELED) →
      HsmLinux.hsm_map_tss_error rc = .ERR_TIMEOUT) ∧
    (HsmLinux.hsm_map_tss_error rc = .ERR_INTERNAL →
      HsmLinux.seal_site_error .startSession rc = .ERR_SEAL_FAILED ∧
      HsmLinux.seal_site_error .policyPCR rc = .ERR_SEAL_FAILED ∧
      HsmLinux.seal_site_error .policyGetDigest rc = .ERR_SEAL_FAILED ∧
      HsmLinux.seal_site_error .createObject rc = .ERR_SEAL_FAILED ∧
      HsmLinux.seal_site_error .esysInit rc = .ERR_INTERNAL ∧
      HsmLinux.seal_site_error .createPrimary rc = .ERR_INTERNAL ∧
      HsmLinux.unseal_site_error .loadObject rc = .ERR_UNSEAL_FAILED ∧
      HsmLinux.unseal_site_error .startSession rc = .ERR_UNSEAL_FAILED ∧
      HsmLinux.unseal_site_error .policyPCR rc = .ERR_PCR_MISMATCH ∧
      HsmLinux.unseal_site_error .unsealCmd rc = .ERR_PCR_MISMATCH) := by
  refine ⟨?_, ?_, ?_, ?_, ?_, ?_⟩
  · rintro (h | h | h) <;>
    · have hnz : rc ≠ 0 := by
        intro h0
        rw [h0] at h
        simp [HsmLinux.TPM2_RC_POLICY_FAIL, HsmLinux.TPM2_RC_PCR_CHANGED,
          HsmLinux.TPM2_RC_PCR] at h
      simp [HsmLinux.hsm_map_tss_error, hnz, h, HsmLinux.TSS2_RC_SUCCESS,
        HsmLinux.TPM2_RC_POLICY_FAIL, HsmLinux.TPM2_RC_PCR_CHANGED,
        HsmLinux.TPM2_RC_PCR]
  · rintro (h | h | h | h | h | h) <;>
    · have hnz : rc ≠ 0 := by
        intro h0
        rw [h0] at h
        simp [HsmLinux.TPM2_RC_AUTH_FAIL, HsmLinux.TPM2_RC_BAD_AUTH,
          HsmLinux.TPM2_RC_AUTH_MISSING, HsmLinux.TPM2_RC_AUTH_TYPE,
          HsmLinux.TPM2_RC_AUTH_CONTEXT, HsmLinux.TPM2_RC_AUTH_UNAVAILABLE] at h
      simp [HsmLinux.hsm_map_tss_error, hnz, h, HsmLinux.TSS2_RC_SUCCESS,
        HsmLinux.TPM2_RC_POLICY_FAIL, HsmLinux.TPM2_RC_PCR_CHANGED,
        HsmLinux.TPM2_RC_PCR, HsmLinux.TPM2_RC_AUTH_FAIL,
        HsmLinux.TPM2_RC_BAD_AUTH, HsmLinux.TPM2_RC_AUTH_MISSING,
        HsmLinux.TPM2_RC_AUTH_TYPE, HsmLinux.TPM2_RC_AUTH_CONTEXT,
        HsmLinux.TPM2_RC_AUTH_UNAVAILABLE]
  · rintro (h | h | h | h) <;>
    · have hnz : rc ≠ 0 := by
        intro h0
        rw [h0] at h
        simp [HsmLinux.TPM2_RC_HANDLE, HsmLinux.TPM2_RC_REFERENCE_H0,
          HsmLinux.TPM2_RC_REFERENCE_H1, HsmLinux.TPM2_RC_REFERENCE_H2] at h
      simp [HsmLinux.hsm_map_tss_error, hnz, h, HsmLinux.TSS2_RC_SUCCESS,
        HsmLinux.TPM2_RC_POLICY_FAIL, HsmLinux.TPM2_RC_PCR_CHANGED,
        HsmLinux.TPM2_RC_PCR, HsmLinux.TPM2_RC_AUTH_FAIL,
        HsmLinux.TPM2_RC_BAD_AUTH, HsmLinux.TPM2_RC_AUTH_MISSING,
        HsmLinux.TPM2_RC_AUTH_TYPE, HsmLinux.TPM2_RC_AUTH_CONTEXT,
        HsmLinux.TPM2_RC_AUTH_UNAVAILABLE, HsmLinux.TPM2_RC_LOCALITY,
        HsmLinux.TPM2_RC_HIERARCHY, HsmLinux.TPM2_RC_NV_AUTHORIZATION,
        HsmLinux.TPM2_RC_COMMAND_CODE, HsmLinux.TPM2_RC_DISABLED,
        HsmLinux.TPM2_RC_MEMORY, HsmLinux.TPM2_RC_OBJECT_MEMORY,
        HsmLinux.TPM2_RC_SESSION_MEMORY, HsmLinux.TPM2_RC_OBJECT_HANDLES,
        HsmLinux.TPM2_RC_SESSION_HANDLES, HsmLinux.TPM2_RC_RETRY,
        HsmLinux.TPM2_RC_YIELDED, HsmLinux.TPM2_RC_CANCELED,
        HsmLinux.TPM2_RC_HANDLE, HsmLinux.TPM2_RC_REFERENCE_H0,
        HsmLinux.TPM2_RC_REFERENCE_H1, HsmLinux.TPM2_RC_REFERENCE_H2]
  · rintro (h | h | h | h | h) <;>
    · have hnz : rc ≠ 0 := by
        intro h0
        rw [h0] at h
        simp [HsmLinux.TPM2_RC_MEMORY, HsmLinux.TPM2_RC_OBJECT_MEMORY,
          HsmLinux.TPM2_RC_SESSION_MEMORY, HsmLinux.TPM2_RC_OBJECT_HANDLES,
          HsmLinux.TPM2_RC_SESSION_HANDLES] at h
      simp [HsmLinux.hsm_map_tss_error, hnz, h, HsmLinux.TSS2_RC_SUCCESS,
        HsmLinux.TPM2_RC_POLICY_FAIL, HsmLinux.TPM2_RC_PCR_CHANGED,
        HsmLinux.TPM2_RC_PCR, HsmLinux.TPM2_RC_AUTH_FAIL,
        HsmLinux.TPM2_RC_BAD_AUTH, HsmLinux.TPM2_RC_AUTH_MISSING,
        HsmLinux.TPM2_RC_AUTH_TYPE, HsmLinux.TPM2_RC_AUTH_CONTEXT,
        HsmLinux.TPM2_RC_AUTH_UNAVAILABLE, HsmLinux.TPM2_RC_LOCALITY,
        HsmLinux.TPM2_RC_HIERARCHY, HsmLinux.TPM2_RC_NV_AUTHORIZATION,
        HsmLinux.TPM2_RC_COMMAND_CODE, HsmLinux.TPM2_RC_DISABLED,
        HsmLinux.TPM2_RC_MEMORY, HsmLinux.TPM2_RC_OBJECT_MEMORY,
        HsmLinux.TPM2_RC_SESSION_MEMORY, HsmLinux.TPM2_RC_OBJECT_HANDLES,
        HsmLinux.TPM2_RC_SESSION_HANDLES]
  · rintro (h | h | h) <;>
    · have hnz : rc ≠ 0 := by
        intro h0
        rw [h0] at h
        simp [HsmLinux.TPM2_RC_RETRY, HsmLinux.TPM2_RC_YIELDED,
          HsmLinux.TPM2_RC_CANCELED] at h
      simp [HsmLinux.hsm_map_tss_error, hnz, h, HsmLinux.TSS2_RC_SUCCESS,
        HsmLinux.TPM2_RC_POLICY_FAIL, HsmLinux.TPM2_RC_PCR_CHANGED,
        HsmLinux.TPM2_RC_PCR, HsmLinux.TPM2_RC_AUTH_FAIL,
        HsmLinux.TPM2_RC_BAD_AUTH, HsmLinux.TPM2_RC_AUTH_MISSING,
        HsmLinux.TPM2_RC_AUTH_TYPE, HsmLinux.TPM2_RC_AUTH_CONTEXT,
        HsmLinux.TPM2_RC_AUTH_UNAVAILABLE, HsmLinux.TPM2_RC_LOCALITY,
        HsmLinux.TPM2_RC_HIERARCHY, HsmLinux.TPM2_RC_NV_AUTHORIZATION,
        HsmLinux.TPM2_RC_COMMAND_CODE, HsmLinux.TPM2_RC_DISABLED,
        HsmLinux.TPM2_RC_MEMORY, HsmLinux.TPM2_RC_OBJECT_MEMORY,
        HsmLinux.TPM2_RC_SESSION_MEMORY, HsmLinux.TPM2_RC_OBJECT_HANDLES,
        HsmLinux.TPM2_RC_SESSION_HANDLES, HsmLinux.TPM2_RC_RETRY,
        HsmLinux.TPM2_RC_YIELDED, HsmLinux.TPM2_RC_CANCELED]
  · intro h
    refine ⟨?_, ?_, ?_, ?_, ?_, ?_, ?_, ?_, ?_, ?_⟩ <;>
      simp [HsmLinux.seal_site_error, HsmLinux.unseal_site_error,
        HsmLinux.map_unseal_error, h]

/-- Claim C5 witness: concrete instances of each classification clause. -/
theorem C5_tss_error_classification_witness :
    HsmLinux.hsm_map_tss_error 0x9D = .ERR_PCR_MISMATCH ∧
    HsmLinux.hsm_map_tss_error 0x8E = .ERR_AUTH_FAILED ∧
    HsmLinux.hsm_map_tss_error 0x8B = .ERR_NOT_FOUND ∧
    HsmLinux.hsm_map_tss_error 0x904 = .ERR_MEMORY ∧
    HsmLinux.hsm_map_tss_error 0x922 = .ERR_TIMEOUT ∧
    HsmLinux.seal_site_error .startSession 0x101 = .ERR_SEAL_FAILED ∧
    HsmLinux.seal_site_error .createPrimary 0x101 = .ERR_INTERNAL :=
  ⟨(C5_tss_error_classification 0x9D).1 (Or.inl (by decide)),
   (C5_tss_error_classification 0x8E).2.1 (Or.inl (by decide)),
   (C5_tss_error_classification 0x8B).2.2.1 (Or.inl (by decide)),
   (C5_tss_error_classification 0x904).2.2.2.1 (Or.inl (by decide)),
   (C5_tss_error_classification 0x922).2.2.2.2.1 (Or.inl (by decide)),
   ((C5_tss_error_classification 0x101).2.2.2.2.2 (by decide)).1,
   ((C5_tss_error_classification 0x101).2.2.2.2.2 (by decide)).2.2.2.2.2.1⟩

set_option maxRecDepth 8192 in
/-- Claim C1, counterexample.  The claim promises the round trip for every
PIN of length 1..256, but hsm_seal_pin on the TPM module rejects any PIN
longer than MAX_PIN_LEN = 128 (hsm_linux.c lines 47, 830): sealing a
129-byte PIN returns HSM_ERR_INVALID_IDENTITY, and the subsequent unseal
finds nothing and never invokes the consumer. -/
theorem C1_roundtrip_counterexample :
    (HsmLinux.hsm_seal_pin ⟨[], []⟩ (some "work")
        (some (List.replicate 129 65))).2 =
      HsmLinux.hsm_error.ERR_INVALID_IDENTITY ∧
    (HsmLinux.hsm_unseal_pin
        (HsmLinux.hsm_seal_pin ⟨[], []⟩ (some "work")
            (some (List.replicate 129 65))).1
        (some "work") (some fun _ => 0)).ret =
      HsmLinux.hsm_error.ERR_NOT_FOUND ∧
    (HsmLinux.hsm_unseal_pin
        (HsmLinux.hsm_seal_pin ⟨[], []⟩ (some "work")
            (some (List.replicate 129 65))).1
        (some "work") (some fun _ => 0)).calls = [] := by
  refine ⟨?_, ?_, ?_⟩ <;>
    simp [HsmLinux.hsm_seal_pin, HsmLinux.hsm_unseal_pin,
      HsmLinux.MAX_PIN_LEN, Store.find]

/-- Claim C1, amended.  For every identity and every PIN P with
1 ≤ |P| ≤ 128, seal_pin followed by unseal_pin delivers exactly the bytes
of P to the consumer in a single invocation, and succeeds whenever the
consumer accepts (returns 0). -/
theorem C1_roundtrip (st : HsmLinux.TpmState) (id : String) (p : List Nat)
    (cb : List Nat → Int) (h1 : 1 ≤ p.length)
    (h2 : p.length ≤ HsmLinux.MAX_PIN_LEN) :
    (HsmLinux.hsm_seal_pin st (some id) (some p)).2 =
      HsmLinux.hsm_error.SUCCESS ∧
    (HsmLinux.hsm_unseal_pin (HsmLinux.hsm_seal_pin st (some id) (some p)).1
        (some id) (some cb)).calls = [p] ∧
    (cb p = 0 →
      (HsmLinux.hsm_unseal_pin (HsmLinux.hsm_seal_pin st (some id) (some p)).1
          (some id) (some cb)).ret = HsmLinux.hsm_error.SUCCESS) := by
  have hne : p ≠ [] := by
    intro h0
    rw [h0] at h1
    simp at h1
  have hlen : ¬HsmLinux.MAX_PIN_LEN < p.length := by omega
  refine ⟨?_, ?_, ?_⟩
  · simp [HsmLinux.hsm_seal_pin, hne, hlen]
  · simp [HsmLinux.hsm_seal_pin, hne, hlen, HsmLinux.hsm_unseal_pin,
      Store.find_insert]
  · intro hcb
    simp [HsmLinux.hsm_seal_pin, hne, hlen, HsmLinux.hsm_unseal_pin,
      Store.find_insert, hcb]

/-- Claim C1 witness: the round trip at identity "work" with the three-byte
PIN 1 2 3 and a consumer that checks for exactly those bytes. -/
theorem C1_roundtrip_witness :
    (HsmLinux.hsm_seal_pin ⟨[], [5]⟩ (some "work") (some [1, 2, 3])).2 =
      HsmLinux.hsm_error.SUCCESS ∧
    (HsmLinux.hsm_unseal_pin
        (HsmLinux.hsm_seal_pin ⟨[], [5]⟩ (some "work") (some [1, 2, 3])).1
        (some "work")
        (some fun v => if v = [1, 2, 3] then 0 else 1)).calls = [[1, 2, 3]] ∧
    (HsmLinux.hsm_unseal_pin
        (HsmLinux.hsm_seal_pin ⟨[], [5]⟩ (some "work") (some [1, 2, 3])).1
        (some "work")
        (some fun v => if v = [1, 2, 3] then 0 else 1)).ret =
      HsmLinux.hsm_error.SUCCESS := by
  obtain ⟨a, b, c⟩ := C1_roundtrip ⟨[], [5]⟩ "work" [1, 2, 3]
    (fun v => if v = [1, 2, 3] then 0 else 1) (by decide) (by decide)
  exact ⟨a, b, c (by decide)⟩

set_option maxRecDepth 8192 in
/-- Claim C4, counterexample.  The claim says seal_pin accepts every PIN
length up to 256; the TPM module rejects a 256-byte PIN with
HSM_ERR_INVALID_IDENTITY because MAX_PIN_LEN is 128 (hsm_linux.c line 47).
This also contradicts pinentry/test_hsm.c line 366, which expects sealing a
256-byte PIN to succeed. -/
theorem C4_pin_length_counterexample :
    (HsmLinux.hsm_seal_pin ⟨[], []⟩ (some "max-pin-test")
        (some (List.replicate 256 66))).2 =
      HsmLinux.hsm_error.ERR_INVALID_IDENTITY ∧
    HsmLinux.hsm_error.ERR_INVALID_IDENTITY ≠ HsmLinux.hsm_error.SUCCESS := by
  exact ⟨by simp [HsmLinux.hsm_seal_pin, HsmLinux.MAX_PIN_LEN], by decide⟩

/-- Claim C4, amended.  hsm_seal_pin of the TPM module accepts exactly the
PIN lengths 1..128: lengths 0 and above 128 return HSM_ERR_INVALID_IDENTITY
with the state unchanged, and every length in 1..128 passes the check and
seals successfully in the nominal environment. -/
theorem C4_pin_length_bounds (st : HsmLinux.TpmState) (id : String)
    (p : List Nat) :
    ((p.length = 0 ∨ p.length > HsmLinux.MAX_PIN_LEN) →
      HsmLinux.hsm_seal_pin st (some id) (some p) =
        (st, HsmLinux.hsm_error.ERR_INVALID_IDENTITY)) ∧
    (1 ≤ p.length → p.length ≤ HsmLinux.MAX_PIN_LEN →
      (HsmLinux.hsm_seal_pin st (some id) (some p)).2 =
        HsmLinux.hsm_error.SUCCESS) := by
  constructor
  · rintro (h | h)
    · have h0 : p = [] := List.length_eq_zero.mp h
      simp [HsmLinux.hsm_seal_pin, h0]
    · simp [HsmLinux.hsm_seal_pin, h]
  · intro h1 h2
    have hne : p ≠ [] := by
      intro h0
      rw [h0] at h1
      simp at h1
    have hlen : ¬HsmLinux.MAX_PIN_LEN < p.length := by omega
    simp [HsmLinux.hsm_seal_pin, hne, hlen]

/-- Claim C4 witness: the empty PIN is rejected and a three-byte PIN is
accepted. -/
theorem C4_pin_length_bounds_witness :
    HsmLinux.hsm_seal_pin ⟨[], []⟩ (some "w4") (some []) =
      (⟨[], []⟩, HsmLinux.hsm_error.ERR_INVALID_IDENTITY) ∧
    (HsmLinux.hsm_seal_pin ⟨[], []⟩ (some "w4") (some [4, 5, 6])).2 =
      HsmLinux.hsm_error.SUCCESS :=
  ⟨(C4_pin_length_bounds ⟨[], []⟩ "w4" []).1 (Or.inl (by decide)),
   (C4_pin_length_bounds ⟨[], []⟩ "w4" [4, 5, 6]).2 (by decide) (by decide)⟩

/-- Claim C6, confirmed.  Sealing twice for the same identity leaves
exactly the second PIN: on the TPM module the second seal truncates and
rewrites the identity's file, so the stored blob carries P' under the
current policy and unseal delivers exactly P'; on the Darwin module the
delete-then-add of store_encrypted_pin replaces the keychain item, with
the same outcome.  The prior artifact is not visible to any lookup. -/
theorem C6_last_write_wins (stL : HsmLinux.TpmState) (stD : HsmDarwin.SEState)
    (id : String) (p p' : List Nat) (cb : List Nat → Int)
    (h1 : 1 ≤ p.length) (h2 : p.length ≤ HsmLinux.MAX_PIN_LEN)
    (h1' : 1 ≤ p'.length) (h2' : p'.length ≤ HsmLinux.MAX_PIN_LEN) :
    ((HsmLinux.hsm_seal_pin (HsmLinux.hsm_seal_pin stL (some id) (some p)).1
        (some id) (some p')).2 = HsmLinux.hsm_error.SUCCESS) ∧
    Store.find
        (HsmLinux.hsm_seal_pin (HsmLinux.hsm_seal_pin stL (some id) (some p)).1
          (some id) (some p')).1.files (HsmLinux.get_sealed_path id) =
      some { pin := p', authPolicy := stL.currentPolicy } ∧
    (HsmLinux.hsm_unseal_pin
        (HsmLinux.hsm_seal_pin (HsmLinux.hsm_seal_pin stL (some id) (some p)).1
          (some id) (some p')).1 (some id) (some cb)).calls = [p'] ∧
    (cb p' = 0 →
      (HsmLinux.hsm_unseal_pin
          (HsmLinux.hsm_seal_pin
            (HsmLinux.hsm_seal_pin stL (some id) (some p)).1
            (some id) (some p')).1 (some id) (some cb)).ret =
        HsmLinux.hsm_error.SUCCESS) ∧
    Store.find
        (HsmDarwin.hsm_seal_pin (HsmDarwin.hsm_seal_pin stD (some id) (some p)).1
          (some id) (some p')).1.keychain (HsmDarwin.se_service id) = some p' ∧
    (HsmDarwin.hsm_unseal_pin
        (HsmDarwin.hsm_seal_pin (HsmDarwin.hsm_seal_pin stD (some id) (some p)).1
          (some id) (some p')).1 (some id) (some cb)).calls = [p'] := by
  have hne : p ≠ [] := by
    intro h0
    rw [h0] at h1
    simp at h1
  have hlen : ¬HsmLinux.MAX_PIN_LEN < p.length := by omega
  have hne' : p' ≠ [] := by
    intro h0
    rw [h0] at h1'
    simp at h1'
  have hlen' : ¬HsmLinux.MAX_PIN_LEN < p'.length := by omega
  have hlenD : ¬HsmDarwin.MAX_PIN_LEN < p.length := by
    have : HsmLinux.MAX_PIN_LEN ≤ HsmDarwin.MAX_PIN_LEN := by decide
    omega
  have hlenD' : ¬HsmDarwin.MAX_PIN_LEN < p'.length := by
    have : HsmLinux.MAX_PIN_LEN ≤ HsmDarwin.MAX_PIN_LEN := by decide
    omega
  refine ⟨?_, ?_, ?_, ?_, ?_, ?_⟩
  · simp [HsmLinux.hsm_seal_pin, hne, hlen, hne', hlen']
  · simp [HsmLinux.hsm_seal_pin, hne, hlen, hne', hlen', Store.find_insert]
  · simp [HsmLinux.hsm_seal_pin, hne, hlen, hne', hlen',
      HsmLinux.hsm_unseal_pin, Store.find_insert]
  · intro hcb
    simp [HsmLinux.hsm_seal_pin, hne, hlen, hne', hlen',
      HsmLinux.hsm_unseal_pin, Store.find_insert, hcb]
  · simp [HsmDarwin.hsm_seal_pin, HsmDarwin.store_encrypted_pin, hne, hne',
      hlenD, hlenD', Store.find_insert]
  · simp [HsmDarwin.hsm_seal_pin, HsmDarwin.store_encrypted_pin, hne, hne',
      hlenD, hlenD', HsmDarwin.hsm_unseal_pin, Store.find_insert]

/-- Claim C6 witness: identity "x" sealed with the bytes of "first" then
of "second"; the unseal consumer sees exactly the second PIN. -/
theorem C6_last_write_wins_witness :
    (HsmLinux.hsm_unseal_pin
        (HsmLinux.hsm_seal_pin
          (HsmLinux.hsm_seal_pin ⟨[], []⟩ (some "x") (some [1, 1])).1
          (some "x") (some [2, 2, 2])).1
        (some "x") (some fun _ => 0)).calls = [[2, 2, 2]] ∧
    (HsmDarwin.hsm_unseal_pin
        (HsmDarwin.hsm_seal_pin
          (HsmDarwin.hsm_seal_pin ⟨[]⟩ (some "x") (some [1, 1])).1
          (some "x") (some [2, 2, 2])).1
        (some "x") (some fun _ => 0)).calls = [[2, 2, 2]] :=
  ⟨(C6_last_write_wins ⟨[], []⟩ ⟨[]⟩ "x" [1, 1] [2, 2, 2] (fun _ => 0)
      (by decide) (by decide) (by decide) (by decide)).2.2.1,
   (C6_last_write_wins ⟨[], []⟩ ⟨[]⟩ "x" [1, 1] [2, 2, 2] (fun _ => 0)
      (by decide) (by decide) (by decide) (by decide)).2.2.2.2.2⟩

/-- Claim C7, confirmed.  When an artifact is stored for the identity and
the consumer rejects the delivered PIN (returns non-zero), unseal_pin
returns HSM_ERR_INTERNAL and nothing in the persistent state changes:
the artifact is still present and pin_exists still answers 1.  Holds on
the TPM module (hsm_linux.c line 1235: callback result decides the return
value, and the function never writes the store) and on the Darwin module
(hsm_darwin.c line 740). -/
theorem C7_consumer_failure_nondestructive (stL : HsmLinux.TpmState)
    (stD : HsmDarwin.SEState) (id : String) (blob : HsmLinux.SealedBlob)
    (data : List Nat) (cb : List Nat → Int)
    (hL : Store.find stL.files (HsmLinux.get_sealed_path id) = some blob)
    (hpol : blob.authPolicy = stL.currentPolicy)
    (hcbL : cb blob.pin ≠ 0)
    (hD : Store.find stD.keychain (HsmDarwin.se_service id) = some data)
    (hcbD : cb data ≠ 0) :
    (HsmLinux.hsm_unseal_pin stL (some id) (some cb)).ret =
      HsmLinux.hsm_error.ERR_INTERNAL ∧
    (HsmLinux.hsm_unseal_pin stL (some id) (some cb)).state = stL ∧
    HsmLinux.hsm_pin_exists stL (some id) = 1 ∧
    (HsmDarwin.hsm_unseal_pin stD (some id) (some cb)).ret =
      HsmLinux.hsm_error.ERR_INTERNAL ∧
    (HsmDarwin.hsm_unseal_pin stD (some id) (some cb)).state = stD ∧
    HsmDarwin.hsm_pin_exists stD (some id) = 1 := by
  refine ⟨?_, ?_, ?_, ?_, ?_, ?_⟩ <;>
    simp [HsmLinux.hsm_unseal_pin, HsmDarwin.hsm_unseal_pin, hL, hD, hpol,
      hcbL, hcbD, HsmLinux.hsm_pin_exists, HsmDarwin.hsm_pin_exists]

/-- Claim C7 witness: identity "c" with a stored one-byte PIN and a
consumer that always rejects. -/
theorem C7_consumer_failure_witness :
    (HsmLinux.hsm_unseal_pin
        ⟨[(HsmLinux.get_sealed_path "c", ⟨[7], []⟩)], []⟩ (some "c")
        (some fun _ => 1)).ret = HsmLinux.hsm_error.ERR_INTERNAL ∧
    HsmLinux.hsm_pin_exists
        ⟨[(HsmLinux.get_sealed_path "c", ⟨[7], []⟩)], []⟩ (some "c") = 1 ∧
    (HsmDarwin.hsm_unseal_pin ⟨[(HsmDarwin.se_service "c", [7])]⟩ (some "c")
        (some fun _ => 1)).ret = HsmLinux.hsm_error.ERR_INTERNAL := by
  have h := C7_consumer_failure_nondestructive
    ⟨[(HsmLinux.get_sealed_path "c", ⟨[7], []⟩)], []⟩
    ⟨[(HsmDarwin.se_service "c", [7])]⟩ "c" ⟨[7], []⟩ [7] (fun _ => 1)
    (by simp [Store.find]) rfl (by decide) (by simp [Store.find]) (by decide)
  exact ⟨h.1, h.2.2.1, h.2.2.2.1⟩

/-- Claim C8, confirmed.  After clear_pin completes (with unlink not
faulting), the identity is empty on both modules: pin_exists answers 0 and
a subsequent unseal_pin returns HSM_ERR_NOT_FOUND without invoking the
consumer. -/
theorem C8_clear_then_empty (stL : HsmLinux.TpmState)
    (stD : HsmDarwin.SEState) (id : String) (cb : List Nat → Int) :
    HsmLinux.hsm_pin_exists (HsmLinux.hsm_clear_pin stL (some id) false).1
      (some id) = 0 ∧
    (HsmLinux.hsm_unseal_pin (HsmLinux.hsm_clear_pin stL (some id) false).1
        (some id) (some cb)).ret = HsmLinux.hsm_error.ERR_NOT_FOUND ∧
    (HsmLinux.hsm_unseal_pin (HsmLinux.hsm_clear_pin stL (some id) false).1
        (some id) (some cb)).calls = [] ∧
    HsmDarwin.hsm_pin_exists (HsmDarwin.hsm_clear_pin stD (some id)).1
      (some id) = 0 ∧
    (HsmDarwin.hsm_unseal_pin (HsmDarwin.hsm_clear_pin stD (some id)).1
        (some id) (some cb)).ret = HsmLinux.hsm_error.ERR_NOT_FOUND ∧
    (HsmDarwin.hsm_unseal_pin (HsmDarwin.hsm_clear_pin stD (some id)).1
        (some id) (some cb)).calls = [] := by
  cases hf : Store.find stL.files (HsmLinux.get_sealed_path id) with
  | none =>
      refine ⟨?_, ?_, ?_, ?_, ?_, ?_⟩ <;>
        simp [HsmLinux.hsm_clear_pin, hf, HsmLinux.hsm_pin_exists,
          HsmLinux.hsm_unseal_pin, HsmDarwin.hsm_clear_pin,
          HsmDarwin.hsm_pin_exists, HsmDarwin.hsm_unseal_pin,
          Store.find_erase]
  | some blob =>
      refine ⟨?_, ?_, ?_, ?_, ?_, ?_⟩ <;>
        simp [HsmLinux.hsm_clear_pin, hf, HsmLinux.hsm_pin_exists,
          HsmLinux.hsm_unseal_pin, HsmDarwin.hsm_clear_pin,
          HsmDarwin.hsm_pin_exists, HsmDarwin.hsm_unseal_pin,
          Store.find_erase]

/-- Claim C2.  On the TPM module the zeroization discipline holds on every
return path of hsm_unseal_pin: whichever path is taken, the plaintext
buffer — when one was produced at all — is overwritten with zeros
(unseal_cleanup, memset at hsm_linux.c line 1024) before its memory is
released (Esys_Free, line 1025).  On the Darwin module it does not hold:
evaluating hsm_unseal_pin at a stored identity shows the success path
allocating the decrypted buffer, invoking the consumer, and releasing the
buffer through cf_guard_release (hsm_darwin.c line 738) with no zeroize
event, contradicting the contract of pinentry/hsm.h ("The PIN buffer is
cleared after the callback returns"). -/
theorem C2_unseal_zeroization :
    (∀ (st : HsmLinux.TpmState) (identity : Option String)
        (cb : Option (List Nat → Int)),
      HsmLinux.zeroized_before_release
        (HsmLinux.hsm_unseal_pin st identity cb).events = true) ∧
    (HsmDarwin.hsm_unseal_pin ⟨[(HsmDarwin.se_service "work", [1, 2, 3])]⟩
        (some "work") (some fun _ => 0)).events =
      [.alloc, .callbackCall [1, 2, 3] 0, .release] ∧
    HsmLinux.zeroized_before_release
      [.alloc, .callbackCall [1, 2, 3] 0, .release] = false := by
  refine ⟨?_, ?_, ?_⟩
  · intro st identity cb
    cases identity with
    | none =>
        simp [HsmLinux.hsm_unseal_pin, HsmLinux.zeroized_before_release,
          HsmLinux.zeroize_scan]
    | some id =>
        cases cb with
        | none =>
            simp [HsmLinux.hsm_unseal_pin, HsmLinux.zeroized_before_release,
              HsmLinux.zeroize_scan]
        | some f =>
            cases hf : Store.find st.files (HsmLinux.get_sealed_path id) with
            | none =>
                simp [HsmLinux.hsm_unseal_pin, hf,
                  HsmLinux.zeroized_before_release, HsmLinux.zeroize_scan]
            | some blob =>
                by_cases hp : blob.authPolicy = st.currentPolicy <;>
                  simp [HsmLinux.hsm_unseal_pin, hf, hp,
                    HsmLinux.zeroized_before_release, HsmLinux.zeroize_scan]
  · simp [HsmDarwin.hsm_unseal_pin, Store.find]
  · decide

/-- Claim C3, counterexample.  The claim's naming rule also rejects names
longer than 64 bytes, but validate_identity (c_src/hsm.c lines 110-123)
performs no length check: the 65-byte name of all 'a' bytes passes
validation, and hsm_store_pin dispatches it to the active backend instead
of returning HSM_ERR_INVALID_PARAM. -/
theorem C3_length_rule_counterexample :
    (List.replicate 65 97).length > 64 ∧
    HsmCore.validate_identity (some (List.replicate 65 97)) = true ∧
    HsmCore.hsm_store_pin .TPM .SUCCESS (some (List.replicate 65 97))
      (some [1]) = (.SUCCESS, true) := by
  refine ⟨by decide, by decide, by decide⟩

/-- Claim C3, amended.  For every identity that is empty or contains a byte
in the forbidden set (the bytes of slash, backslash, dot, anything below
0x20 or above 0x7E), the dispatcher operations hsm_store_pin,
hsm_retrieve_pin, hsm_clear_pin and hsm_has_pin reject it with
HSM_ERR_INVALID_PARAM (0 for hsm_has_pin) before any backend dispatch, for
every detected backend and every backend outcome.  No maximum-length rule
is enforced. -/
theorem C3_invalid_names_rejected (bytes : List Nat) (pin : Option (List Nat))
    (detected : HsmCore.HSMType) (rSeal rRet rClear : HsmCore.HSMStatus)
    (rHas : Bool)
    (h : bytes.isEmpty = true ∨
      bytes.any (fun c => !HsmCore.valid_identity_char c) = true) :
    HsmCore.hsm_store_pin detected rSeal (some bytes) pin =
      (HsmCore.HSMStatus.ERR_INVALID_PARAM, false) ∧
    HsmCore.hsm_retrieve_pin detected rRet (some bytes) =
      (HsmCore.HSMStatus.ERR_INVALID_PARAM, false) ∧
    HsmCore.hsm_clear_pin detected rClear (some bytes) =
      (HsmCore.HSMStatus.ERR_INVALID_PARAM, false) ∧
    HsmCore.hsm_has_pin detected rHas (some bytes) = (0, false) := by
  have hv : HsmCore.validate_identity (some bytes) = false := by
    rcases h with h | h
    · simp [HsmCore.validate_identity, h]
    · obtain ⟨c, hc, hcb⟩ := List.any_eq_true.mp h
      cases hall : bytes.all HsmCore.valid_identity_char with
      | false => simp [HsmCore.validate_identity, hall]
      | true =>
          have hvc := List.all_eq_true.mp hall c hc
          rw [hvc] at hcb
          simp at hcb
  refine ⟨?_, ?_, ?_, ?_⟩ <;>
    simp [HsmCore.hsm_store_pin, HsmCore.hsm_retrieve_pin,
      HsmCore.hsm_clear_pin, HsmCore.hsm_has_pin, hv]

/-- Claim C3 witness: the one-byte name "/" is rejected by all four
dispatcher operations with no backend call, for the TPM backend with a
succeeding backend outcome. -/
theorem C3_invalid_names_rejected_witness :
    HsmCore.hsm_store_pin .TPM .SUCCESS (some [47]) (some [1]) =
      (HsmCore.HSMStatus.ERR_INVALID_PARAM, false) ∧
    HsmCore.hsm_retrieve_pin .TPM .SUCCESS (some [47]) =
      (HsmCore.HSMStatus.ERR_INVALID_PARAM, false) ∧
    HsmCore.hsm_clear_pin .TPM .SUCCESS (some [47]) =
      (HsmCore.HSMStatus.ERR_INVALID_PARAM, false) ∧
    HsmCore.hsm_has_pin .TPM true (some [47]) = (0, false) :=
  C3_invalid_names_rejected [47] (some [1]) .TPM .SUCCESS .SUCCESS .SUCCESS
    true (Or.inr (by decide))

/-- Claim C9, counterexample.  The claim requires clear_pin to report
not_found when no artifact exists, but hsm_clear_pin of the TPM module
(hsm_linux.c line 1277) treats a failed unlink with errno ENOENT as
success: clearing a never-stored identity returns HSM_SUCCESS. -/
theorem C9_clear_absent_counterexample :
    (HsmLinux.hsm_clear_pin ⟨[], []⟩ (some "stale") false).2 =
      HsmLinux.hsm_error.SUCCESS ∧
    HsmLinux.hsm_error.SUCCESS ≠ HsmLinux.hsm_error.ERR_NOT_FOUND := by
  exact ⟨by simp [HsmLinux.hsm_clear_pin, Store.find], by decide⟩

/-- Claim C9, amended.  tpm_delete (c_src/hsm_tpm.c lines 322-361)
discriminates exactly as the claim says: KEY_NOT_FOUND when no sealed file
exists, the io error when unlink fails for another reason, and SUCCESS
exactly when an existing artifact was removed.  hsm_clear_pin of the
pinentry TPM module returns the io error on a non-ENOENT unlink failure
and SUCCESS when it removed the artifact, but also returns SUCCESS — not
not_found — when the artifact was already absent. -/
theorem C9_clear_discrimination (fs : List (String × List Nat))
    (stL : HsmLinux.TpmState) (id : String) (blobF : List Nat)
    (blobL : HsmLinux.SealedBlob) (fault : Bool) (hid : id ≠ "") :
    (Store.find fs (HsmCore.tpm_get_sealed_path id) = none →
      HsmCore.tpm_delete fs (some id) fault =
        (fs, HsmCore.HSMStatus.ERR_KEY_NOT_FOUND)) ∧
    (Store.find fs (HsmCore.tpm_get_sealed_path id) = some blobF →
      fault = true →
      HsmCore.tpm_delete fs (some id) fault =
        (fs, HsmCore.HSMStatus.ERR_IOERR)) ∧
    (Store.find fs (HsmCore.tpm_get_sealed_path id) = some blobF →
      fault = false →
      HsmCore.tpm_delete fs (some id) fault =
        (Store.erase fs (HsmCore.tpm_get_sealed_path id),
         HsmCore.HSMStatus.SUCCESS)) ∧
    (Store.find stL.files (HsmLinux.get_sealed_path id) = none →
      HsmLinux.hsm_clear_pin stL (some id) fault =
        (stL, HsmLinux.hsm_error.SUCCESS)) ∧
    (Store.find stL.files (HsmLinux.get_sealed_path id) = some blobL →
      fault = true →
      HsmLinux.hsm_clear_pin stL (some id) fault =
        (stL, HsmLinux.hsm_error.ERR_IOERR)) ∧
    (Store.find stL.files (HsmLinux.get_sealed_path id) = some blobL →
      fault = false →
      HsmLinux.hsm_clear_pin stL (some id) fault =
        ({ stL with
            files := (Store.erase stL.files (HsmLinux.get_sealed_path id)) },
         HsmLinux.hsm_error.SUCCESS)) := by
  refine ⟨?_, ?_, ?_, ?_, ?_, ?_⟩ <;>
    · intro hf
      first
      | (intro hfault
         subst hfault
         simp [HsmCore.tpm_delete, HsmLinux.hsm_clear_pin, hf, hid])
      | simp [HsmCore.tpm_delete, HsmLinux.hsm_clear_pin, hf, hid]

/-- Claim C9 witness: clearing the absent identity "w9" is KEY_NOT_FOUND
through tpm_delete, and removal of a present artifact succeeds. -/
theorem C9_clear_discrimination_witness :
    HsmCore.tpm_delete [] (some "w9") false =
      ([], HsmCore.HSMStatus.ERR_KEY_NOT_FOUND) ∧
    HsmCore.tpm_delete [(HsmCore.tpm_get_sealed_path "w9", [9])]
        (some "w9") false = ([], HsmCore.HSMStatus.SUCCESS) := by
  constructor
  · exact (C9_clear_discrimination [] ⟨[], []⟩ "w9" [9] ⟨[], []⟩ false
      (by decide)).1 rfl
  · have h := (C9_clear_discrimination
      [(HsmCore.tpm_get_sealed_path "w9", [9])] ⟨[], []⟩ "w9" [9] ⟨[], []⟩
      false (by decide)).2.2.1 (by simp [Store.find]) rfl
    rw [h]
    simp [Store.erase]

/-- Claim C10.  hsm_error_message of the pinentry modules is not total:
its message array has 100 slots with only indices 0..13 and 99 populated
(designated initializers, hsm_linux.c lines 1293-1309), and the range
guard admits every index below 100, so the statuses 14..98 return the
null pointer instead of a string — hsm_error_message(14) = none — while
the documented fallback "Unknown error" is only reached at or above 100
(and for negatives).  The c_src variant is total: its thirteen-entry
table is fully populated and every status yields some string. -/
theorem C10_error_message_totality :
    HsmLinux.hsm_error_message 14 = none ∧
    HsmLinux.hsm_error_message 99 = some "Internal error" ∧
    HsmLinux.hsm_error_message 999 = some "Unknown error" ∧
    (∀ s : Int, (HsmCore.hsm_error_message s).isSome = true) := by
  refine ⟨by decide, by decide, by decide, ?_⟩
  intro s
  by_cases h : ((if s ≤ 0 then -s else 0).toNat < HsmCore.ERROR_MESSAGES.length)
  · simp only [HsmCore.hsm_error_message, h, if_true]
    cases hg : HsmCore.ERROR_MESSAGES.get? (if s ≤ 0 then -s else 0).toNat with
    | none =>
        have := List.get?_eq_none.mp hg
        omega
    | some v => simp
  · simp [HsmCore.hsm_error_message, h]
